import Mathlib

/-!
Shallow embedding of the metanet-mobile-notification-server core
(TypeScript/Express + Firestore) and verification of its specification.

Firestore documents are schemaless, so document types below use `Option`
fields; JavaScript truthiness on strings, booleans and object fields is
made explicit through the `truthyStr` / `truthyBool` helpers.  Firestore
collections are modelled as association lists keyed by document id, with
`setDoc` giving the replace-or-create semantics of `doc(id).set(data)`.
-/

namespace MetanetNotify

/-- JavaScript truthiness of a possibly missing string field:
`undefined` and the empty string are falsy. -/
def truthyStr : Option String → Bool
  | none => false
  | some s => if s = "" then false else true

/-- JavaScript truthiness of a possibly missing boolean field. -/
def truthyBool : Option Bool → Bool
  | none => false
  | some b => b

/-- JavaScript `a || b` on string-valued expressions
(used for the Origin/Host header fallback chain). -/
def jsOr (a b : Option String) : Option String :=
  if truthyStr a then a else b

/-- JavaScript `a || d` where `d` is a string default
(used for `platform || "unknown"` and `environment || "production"`). -/
def jsOrDefault (a : Option String) (d : String) : String :=
  match a with
  | none => d
  | some s => if s = "" then d else s

/-- Lookup by document id / object key in an association list
(models `collection.doc(id).get()` and JS object indexing). -/
def lookupDoc {α : Type} : List (String × α) → String → Option α
  | [], _ => none
  | (k, v) :: rest, key => if k = key then some v else lookupDoc rest key

/-- Replace-or-create by document id (models `collection.doc(id).set(data)`
and the JS object-spread overwrite of a key). -/
def setDoc {α : Type} : List (String × α) → String → α → List (String × α)
  | [], key, v => [(key, v)]
  | (k, w) :: rest, key, v =>
    if k = key then (key, v) :: rest else (k, w) :: setDoc rest key v

/-- Remove a key (models JS `delete obj[key]`). -/
def eraseKey {α : Type} : List (String × α) → String → List (String × α)
  | [], _ => []
  | (k, v) :: rest, key => if k = key then rest else (k, v) :: eraseKey rest key

/-- Number of records stored under a given document id. -/
def countKey {α : Type} : List (String × α) → String → Nat
  | [], _ => 0
  | (k, _) :: rest, key => (if k = key then 1 else 0) + countKey rest key

/-! ### SHA-256 (used by generateUserKey in routes/subscriptions.ts) -/

/-- Truncation to a 32-bit machine word. -/
def w32 (n : Nat) : Nat := n % 4294967296

/-- 32-bit right rotation (argument assumed below 2^32). -/
def rotr32 (k x : Nat) : Nat := w32 ((x >>> k) ||| (x <<< (32 - k)))

def bsig0 (x : Nat) : Nat := (rotr32 2 x) ^^^ (rotr32 13 x) ^^^ (rotr32 22 x)

def bsig1 (x : Nat) : Nat := (rotr32 6 x) ^^^ (rotr32 11 x) ^^^ (rotr32 25 x)

def ssig0 (x : Nat) : Nat := (rotr32 7 x) ^^^ (rotr32 18 x) ^^^ (x >>> 3)

def ssig1 (x : Nat) : Nat := (rotr32 17 x) ^^^ (rotr32 19 x) ^^^ (x >>> 10)

def sha256K : List Nat :=
  [1116352408, 1899447441, 3049323471, 3921009573, 961987163,
   1508970993, 2453635748, 2870763221, 3624381080, 310598401,
   607225278, 1426881987, 1925078388, 2162078206, 2614888103,
   3248222580, 3835390401, 4022224774, 264347078, 604807628,
   770255983, 1249150122, 1555081692, 1996064986, 2554220882,
   2821834349, 2952996808, 3210313671, 3336571891, 3584528711,
   113926993, 338241895, 666307205, 773529912, 1294757372,
   1396182291, 1695183700, 1986661051, 2177026350, 2456956037,
   2730485921, 2820302411, 3259730800, 3345764771, 3516065817,
   3600352804, 4094571909, 275423344, 430227734, 506948616,
   659060556, 883997877, 958139571, 1322822218, 1537002063,
   1747873779, 1955562222, 2024104815, 2227730452, 2361852424,
   2428436474, 2756734187, 3204031479, 3329325298]

def sha256Init : List Nat :=
  [1779033703, 3144134277, 1013904242, 2773480762,
   1359893119, 2600822924, 528734635, 1541459225]

/-- Big-endian grouping of bytes into 32-bit words. -/
def bytesToWords : List Nat → List Nat
  | b0 :: b1 :: b2 :: b3 :: rest =>
    (b0 * 16777216 + b1 * 65536 + b2 * 256 + b3) :: bytesToWords rest
  | _ => []

/-- Extend a 16-word block schedule by n further words. -/
def scheduleExtend (ws : List Nat) : Nat → List Nat
  | 0 => ws
  | k + 1 =>
    let prev := scheduleExtend ws k
    let n := prev.length
    prev ++ [w32 (ssig1 (prev.getD (n - 2) 0) + prev.getD (n - 7) 0 +
                  ssig0 (prev.getD (n - 15) 0) + prev.getD (n - 16) 0)]

def schedule (ws : List Nat) : List Nat := scheduleExtend ws 48

/-- One SHA-256 compression round on the 8-word working state. -/
def sha256Round (st : List Nat) (kw : Nat × Nat) : List Nat :=
  match st with
  | [a, b, c, d, e, f, g, h] =>
    let ch := (e &&& f) ^^^ ((e ^^^ 0xffffffff) &&& g)
    let maj := (a &&& b) ^^^ (a &&& c) ^^^ (b &&& c)
    let t1 := w32 (h + bsig1 e + ch + kw.1 + kw.2)
    let t2 := w32 (bsig0 a + maj)
    [w32 (t1 + t2), a, b, c, w32 (d + t1), e, f, g]
  | other => other

/-- Process one padded 64-byte chunk. -/
def sha256Chunk (hs : List Nat) (chunk : List Nat) : List Nat :=
  let ws := schedule (bytesToWords chunk)
  let st := (sha256K.zip ws).foldl sha256Round hs
  (hs.zip st).map (fun p => w32 (p.1 + p.2))

/-- SHA-256 padding: 0x80, zeros, then the 64-bit big-endian bit length. -/
def padMessage (bs : List Nat) : List Nat :=
  let l := bs.length
  let zeros := (119 - l % 64) % 64
  bs ++ [128] ++ List.replicate zeros 0 ++
    (List.range 8).map (fun i => ((8 * l) >>> (56 - 8 * i)) % 256)

def chunks64 (bs : List Nat) : List (List Nat) :=
  (List.range (bs.length / 64)).map (fun i => (bs.drop (64 * i)).take 64)

def sha256Words (bs : List Nat) : List Nat :=
  (chunks64 (padMessage bs)).foldl sha256Chunk sha256Init

def hexDigit (n : Nat) : Char :=
  if n < 10 then Char.ofNat (48 + n) else Char.ofNat (87 + n)

def wordToHex (w : Nat) : String :=
  String.mk ((List.range 8).map (fun i => hexDigit ((w >>> (28 - 4 * i)) % 16)))

/-- Standard UTF-8 encoding of one code point. -/
def utf8Bytes (c : Char) : List Nat :=
  let n := c.toNat
  if n < 0x80 then [n]
  else if n < 0x800 then
    [0xC0 ||| (n >>> 6), 0x80 ||| (n &&& 0x3F)]
  else if n < 0x10000 then
    [0xE0 ||| (n >>> 12), 0x80 ||| ((n >>> 6) &&& 0x3F), 0x80 ||| (n &&& 0x3F)]
  else
    [0xF0 ||| (n >>> 18), 0x80 ||| ((n >>> 12) &&& 0x3F),
     0x80 ||| ((n >>> 6) &&& 0x3F), 0x80 ||| (n &&& 0x3F)]

/-- UTF-8 bytes of a string (Node `Buffer.from(s)` / `hash.update(s)`). -/
def strBytes (s : String) : List Nat := (s.toList.map utf8Bytes).flatten

/-- Lowercase hex SHA-256 digest of a string,
as produced by `createHash("sha256").update(s).digest("hex")`. -/
def sha256Hex (s : String) : String :=
  String.join ((sha256Words (strBytes s)).map wordToHex)

/-! ### generateUserKey (routes/subscriptions.ts) -/

/-- The delimiter concatenation fed to the hash:
`const combined = userId + ":" + origin`. -/
def combinedKeyInput (userId origin : String) : String := userId ++ ":" ++ origin

/-- routes/subscriptions.ts generateUserKey:
truncated hex SHA-256 of the colon concatenation. -/
def generateUserKey (userId origin : String) : String :=
  (sha256Hex (combinedKeyInput userId origin)).take 32

/-! ### base64 and the controller user key (controllers/subscriptionController.ts) -/

def base64Alphabet : List Char :=
  "ABCDEFGHIJKLMNOPQRSTUVWXYZabcdefghijklmnopqrstuvwxyz0123456789+/".toList

def b64c (n : Nat) : Char := base64Alphabet.getD n 'A'

/-- Standard base64 of a byte list (Node `Buffer.toString("base64")`). -/
def base64Encode : List Nat → String
  | [] => ""
  | [b0] => String.mk [b64c (b0 / 4), b64c ((b0 % 4) * 16), '=', '=']
  | [b0, b1] =>
    String.mk [b64c (b0 / 4), b64c ((b0 % 4) * 16 + b1 / 16),
               b64c ((b1 % 16) * 4), '=']
  | b0 :: b1 :: b2 :: rest =>
    String.mk [b64c (b0 / 4), b64c ((b0 % 4) * 16 + b1 / 16),
               b64c ((b1 % 16) * 4 + b2 / 64), b64c (b2 % 64)] ++
    base64Encode rest

/-- controllers userKey scheme: `userId + "-" + Buffer.from(origin).toString("base64")`
(used by both registerSubscription and sendPushNotification). -/
def controllerUserKey (userId origin : String) : String :=
  userId ++ "-" ++ base64Encode (strBytes origin)

/-! ### extractFCMToken (routes/subscriptions.ts) -/

def fcmMarker : List Char := "fcm/send/".toList

/-- Leftmost-match semantics of the regex `fcm\/send\/(.+)$`: at each
position where the marker occurs, `(.+)$` succeeds iff the remaining
suffix is nonempty and newline-free; otherwise the engine advances. -/
def extractTokenChars : List Char → Option (List Char)
  | [] => none
  | c :: rest =>
    if fcmMarker.isPrefixOf (c :: rest) then
      let suffix := (c :: rest).drop fcmMarker.length
      if suffix.length > 0 && !(suffix.contains '\n') then some suffix
      else extractTokenChars rest
    else extractTokenChars rest

/-- routes/subscriptions.ts extractFCMToken:
`endpoint.match(/fcm\/send\/(.+)$/)` returning the capture or null. -/
def extractFCMToken (endpoint : String) : Option String :=
  (extractTokenChars endpoint.toList).map String.mk

/-! ### Data model: Firestore documents -/

/-- A per-origin consent entry as written by the register handler:
`permissions[origin] = { granted, timestamp }`. -/
structure PermEntry where
  granted : Bool
  timestamp : Nat
deriving DecidableEq

/-- Web Push key pair stored under `keys`. -/
structure WebPushKeys where
  p256dh : String
  auth : String
deriving DecidableEq

/-- A document of the `subscriptions` collection.  Every field is
optional because Firestore documents are schemaless: the controller
register handler writes a different field set than the inline register
handler of routes/subscriptions.ts. -/
structure SubscriptionDoc where
  userKey : Option String := none
  userId : Option String := none
  origin : Option String := none
  fcmToken : Option String := none
  endpoint : Option String := none
  keys : Option WebPushKeys := none
  platform : Option String := none
  deviceInfo : Option String := none
  permissions : Option (List (String × PermEntry)) := none
  active : Option Bool := none
  createdAt : Option Nat := none
  updatedAt : Option Nat := none
  timestamp : Option Nat := none
deriving DecidableEq

/-- A document of the `apiKeys` collection (middleware/auth.ts). -/
structure ApiKeyDoc where
  origin : Option String := none
  permissions : Option (List String) := none
  active : Option Bool := none
  expiresAt : Option Nat := none
  createdBy : Option String := none
  environment : Option String := none
deriving DecidableEq

/-- The tenant context the auth middleware attaches to the request
(`req.origin` and `req.apiKeyInfo`). -/
structure TenantContext where
  origin : Option String
  permissions : List String
  createdBy : Option String
  environment : String
deriving DecidableEq

/-- A document of the `notifications` audit collection, written by the
send handler of routes/notifications.ts. -/
structure DispatchRecord where
  messageId : String
  userKey : String
  origin : String
  title : String
  body : String
  status : String
deriving DecidableEq

def SubsStore : Type := List (String × SubscriptionDoc)

def KeyStore : Type := List (String × ApiKeyDoc)

/-! ### validateApiKey (middleware/auth.ts) -/

inductive AuthResult where
  | missingKey
  | invalidFormat
  | invalidKey
  | deactivated
  | expired
  | proceed (ctx : TenantContext)
  | internalError
deriving DecidableEq

def devTestKey : String := "dev-test-api-key-12345"

def devContext : TenantContext :=
  { origin := some "localhost:3000",
    permissions := ["notifications:send", "subscriptions:manage"],
    createdBy := some devTestKey,
    environment := "development" }

/-- JS check `apiKeyData.expiresAt && Date.now() > apiKeyData.expiresAt`
(a missing or zero expiresAt is falsy and skips the comparison). -/
def keyExpired (expiresAt : Option Nat) (now : Nat) : Bool :=
  match expiresAt with
  | none => false
  | some t => if t = 0 then false else decide (now > t)

def mkContext (d : ApiKeyDoc) : TenantContext :=
  { origin := d.origin,
    permissions := d.permissions.getD [],
    createdBy := d.createdBy,
    environment := jsOrDefault d.environment "production" }

/-- Models `authHeader.startsWith("Bearer ")`. -/
def hasBearerTag (h : String) : Bool :=
  "Bearer ".toList.isPrefixOf h.toList

/-- Models `authHeader.substring(7)`. -/
def afterBearerTag (h : String) : String :=
  String.mk (h.toList.drop 7)

/-- middleware/auth.ts validateApiKey.  `usageWriteOk` models whether the
awaited `apiUsage` audit write succeeds; the write sits inside the try
block, so when it throws the catch handler answers 500 instead of
calling next(). -/
def validateApiKey (production : Bool) (authHeader : Option String)
    (apiKeys : KeyStore) (now : Nat) (usageWriteOk : Bool) : AuthResult :=
  match authHeader with
  | none => AuthResult.missingKey
  | some h =>
    if hasBearerTag h then
      let apiKey := afterBearerTag h
      if !production && apiKey = devTestKey then AuthResult.proceed devContext
      else if apiKey.length < 32 then AuthResult.invalidFormat
      else
        match lookupDoc apiKeys apiKey with
        | none => AuthResult.invalidKey
        | some d =>
          if truthyBool d.active then
            if keyExpired d.expiresAt now then AuthResult.expired
            else if usageWriteOk then AuthResult.proceed (mkContext d)
            else AuthResult.internalError
          else AuthResult.deactivated
    else AuthResult.missingKey

/-! ### POST /notifications/send (routes/notifications.ts) -/

structure SendBody where
  userKey : String
  title : String
  body : String
deriving DecidableEq

/-- Joi schema constraints on the required fields of the send body
(Joi strings reject the empty string by default; title ≤ 100, body ≤ 200). -/
def validSendBody (b : SendBody) : Bool :=
  !(b.userKey = "") && !(b.title = "") && decide (b.title.length ≤ 100) &&
  !(b.body = "") && decide (b.body.length ≤ 200)

inductive SendOutcome where
  | validationError
  | originMissing
  | userNotFound
  | permissionDenied
  | noFcmToken
  | sent (messageId : String)
  | invalidToken
  | internalError
deriving DecidableEq

/-- Result of the awaited FCM `sendNotification` call: success, a
token-invalid class error code, or any other thrown error. -/
inductive FcmResult where
  | ok
  | tokenInvalid
  | otherFailure
deriving DecidableEq

/-- The consent check of the send handler:
`userData.permissions?.[origin]` — truthy iff the permissions object is
present and holds an entry for the requesting origin (an entry object is
always truthy, so its granted flag is not consulted here). -/
def hasPermissionEntry (doc : SubscriptionDoc) (origin : String) : Bool :=
  match doc.permissions with
  | none => false
  | some m => (lookupDoc m origin).isSome

/-- routes/notifications.ts POST /send.  `tenantOrigin` is the origin the
auth middleware attached to the request; the handler never reads it and
instead resolves the origin from the Origin/Host request headers.
Returns the HTTP outcome together with the list of records written to
the `notifications` audit collection. -/
def notificationsSend (subs : SubsStore) (tenantOrigin : Option String)
    (headerOrigin hostHeader : Option String) (body : SendBody)
    (messageId : String) (fcm : FcmResult) (auditWriteOk : Bool) :
    SendOutcome × List DispatchRecord :=
  if validSendBody body then
    match jsOr headerOrigin hostHeader with
    | none => (SendOutcome.originMissing, [])
    | some o =>
      if o = "" then (SendOutcome.originMissing, [])
      else
        match lookupDoc subs body.userKey with
        | none => (SendOutcome.userNotFound, [])
        | some doc =>
          if hasPermissionEntry doc o then
            if truthyStr doc.fcmToken then
              match fcm with
              | FcmResult.tokenInvalid => (SendOutcome.invalidToken, [])
              | FcmResult.otherFailure => (SendOutcome.internalError, [])
              | FcmResult.ok =>
                if auditWriteOk then
                  (SendOutcome.sent messageId,
                   [{ messageId := messageId, userKey := body.userKey,
                      origin := o, title := body.title, body := body.body,
                      status := "sent" }])
                else (SendOutcome.internalError, [])
            else (SendOutcome.noFcmToken, [])
          else (SendOutcome.permissionDenied, [])
  else (SendOutcome.validationError, [])

inductive RouteOutcome where
  | authFailed (r : AuthResult)
  | handled (s : SendOutcome)
deriving DecidableEq

/-- The wired route `router.post("/send", validateApiKey, handler)`:
the middleware runs first and the handler only runs when it proceeds. -/
def sendRoute (production : Bool) (authHeader : Option String)
    (apiKeys : KeyStore) (now : Nat) (usageWriteOk : Bool)
    (subs : SubsStore) (headerOrigin hostHeader : Option String)
    (body : SendBody) (messageId : String) (fcm : FcmResult)
    (auditWriteOk : Bool) : RouteOutcome × List DispatchRecord :=
  match validateApiKey production authHeader apiKeys now usageWriteOk with
  | AuthResult.proceed ctx =>
    let r := notificationsSend subs ctx.origin headerOrigin hostHeader body
               messageId fcm auditWriteOk
    (RouteOutcome.handled r.1, r.2)
  | r => (RouteOutcome.authFailed r, [])

/-! ### POST /subscriptions/register, inline handler (routes/subscriptions.ts) -/

inductive RegisterOutcome where
  | validationError
  | originMissing
  | invalidEndpoint
  | devSuccess (userKey : String)
  | success (userKey : String)
deriving DecidableEq

/-- Models `existingDoc.exists ? (existingDoc.data()?.createdAt || Date.now()) : Date.now()`
(a stored createdAt of 0 is falsy in JS and falls back to now). -/
def registerCreatedAt (existing : Option SubscriptionDoc) (now : Nat) : Nat :=
  match existing with
  | some d =>
    match d.createdAt with
    | some c => if c = 0 then now else c
    | none => now
  | none => now

/-- The permissions object written by the inline register handler: the
spread of the existing permissions (when the document exists) with the
registering origin set to a fresh granted entry. -/
def registerPerms (existing : Option SubscriptionDoc) (origin : String)
    (now : Nat) : List (String × PermEntry) :=
  match existing with
  | some d =>
    match d.permissions with
    | some m => setDoc m origin { granted := true, timestamp := now }
    | none => [(origin, { granted := true, timestamp := now })]
  | none => [(origin, { granted := true, timestamp := now })]

/-- The subscriptionData document the inline register handler stores. -/
def registerDoc (existing : Option SubscriptionDoc)
    (userKey userId origin fcmToken endpoint p256dh auth : String)
    (deviceInfo : Option String) (now : Nat) : SubscriptionDoc :=
  { userKey := some userKey, userId := some userId,
    origin := some origin, fcmToken := some fcmToken,
    endpoint := some endpoint,
    keys := some { p256dh := p256dh, auth := auth },
    deviceInfo := deviceInfo,
    permissions := some (registerPerms existing origin now),
    createdAt := some (registerCreatedAt existing now),
    updatedAt := some now, active := some true }

/-- The inline register handler of routes/subscriptions.ts.  The Joi
schema requires endpoint, keys.p256dh, keys.auth and userId (nonempty);
`tenantOrigin` is the middleware-set origin.  `isDev` models the
development-mode short circuit that skips Firestore.  The `events`
append (registration ConsentEvent) does not affect the stored
subscription and is elided. -/
def registerInline (subs : SubsStore) (tenantOrigin : Option String)
    (userId endpoint p256dh auth : String) (deviceInfo : Option String)
    (isDev : Bool) (now : Nat) : RegisterOutcome × SubsStore :=
  if userId = "" ∨ endpoint = "" ∨ p256dh = "" ∨ auth = "" then
    (RegisterOutcome.validationError, subs)
  else
    match tenantOrigin with
    | none => (RegisterOutcome.originMissing, subs)
    | some origin =>
      if origin = "" then (RegisterOutcome.originMissing, subs)
      else
        match extractFCMToken endpoint with
        | none => (RegisterOutcome.invalidEndpoint, subs)
        | some fcmToken =>
          let userKey := generateUserKey userId origin
          if isDev then (RegisterOutcome.devSuccess userKey, subs)
          else
            let doc := registerDoc (lookupDoc subs userKey) userKey userId
              origin fcmToken endpoint p256dh auth deviceInfo now
            (RegisterOutcome.success userKey, setDoc subs userKey doc)

/-! ### registerSubscription (controllers/subscriptionController.ts) -/

/-- Unvalidated request body destructured by the controller. -/
structure ControllerBody where
  endpoint : Option String := none
  p256dh : Option String := none
  auth : Option String := none
  fcmToken : Option String := none
  origin : Option String := none
  platform : Option String := none
  userId : Option String := none
deriving DecidableEq

inductive ControllerOutcome where
  | missingFields
  | invalidFormat
  | success (userKey : String)
deriving DecidableEq

/-- controllers/subscriptionController.ts registerSubscription, the
handler wired at POST /subscriptions/register.  Writes with
`docRef.set(data)` (no merge), replacing any prior document; the stored
record has no permissions map and no active flag. -/
def registerSubscription (subs : SubsStore) (b : ControllerBody)
    (now : Nat) : ControllerOutcome × SubsStore :=
  if truthyStr b.origin && truthyStr b.userId then
    let origin := b.origin.getD ""
    let userId := b.userId.getD ""
    let userKey := controllerUserKey userId origin
    let base : SubscriptionDoc :=
      { userId := some userId, origin := some origin,
        platform := some (jsOrDefault b.platform "unknown"),
        timestamp := some now }
    if truthyStr b.fcmToken then
      (ControllerOutcome.success userKey,
       setDoc subs userKey { base with fcmToken := b.fcmToken })
    else if truthyStr b.endpoint && truthyStr b.auth && truthyStr b.p256dh then
      (ControllerOutcome.success userKey,
       setDoc subs userKey
         { base with endpoint := b.endpoint,
                     keys := some { p256dh := b.p256dh.getD "",
                                    auth := b.auth.getD "" } })
    else (ControllerOutcome.invalidFormat, subs)
  else (ControllerOutcome.missingFields, subs)

/-! ### DELETE /subscriptions/:userKey (routes/subscriptions.ts) -/

inductive DeleteOutcome where
  | missingParam
  | notFound
  | success
deriving DecidableEq

/-- Models `Object.values(permissions || \x7b\x7d).some(p => p?.granted)`. -/
def anyGranted (m : List (String × PermEntry)) : Bool :=
  m.any (fun p => p.2.granted)

/-- Models `if (userData.permissions && origin && userData.permissions[origin]) delete ...`. -/
def revokePerms (perms : Option (List (String × PermEntry)))
    (tenantOrigin : Option String) : Option (List (String × PermEntry)) :=
  match perms, tenantOrigin with
  | some m, some o =>
    if o ≠ "" ∧ (lookupDoc m o).isSome then some (eraseKey m o)
    else some m
  | p, _ => p

/-- The document the delete handler stores back: permissions entry of
the middleware origin removed, `active` cleared when no remaining entry
is granted (and only then), updatedAt refreshed. -/
def revokedDoc (d : SubscriptionDoc) (tenantOrigin : Option String)
    (now : Nat) : SubscriptionDoc :=
  let perms := revokePerms d.permissions tenantOrigin
  { d with permissions := perms,
           active := if anyGranted (perms.getD []) then d.active else some false,
           updatedAt := some now }

/-- routes/subscriptions.ts DELETE /:userKey.  The `events` append
(revocation ConsentEvent) does not affect the stored subscription and is
elided. -/
def deleteSubscription (subs : SubsStore) (userKey : String)
    (tenantOrigin : Option String) (now : Nat) : DeleteOutcome × SubsStore :=
  if userKey = "" then (DeleteOutcome.missingParam, subs)
  else
    match lookupDoc subs userKey with
    | none => (DeleteOutcome.notFound, subs)
    | some d =>
      (DeleteOutcome.success, setDoc subs userKey (revokedDoc d tenantOrigin now))

/-! ### sendPushNotification (controllers/sendPushController.ts) -/

inductive PushOutcome where
  | missingParams
  | notFound
  | fcmSent
  | webPushSent
  | incompleteData
  | pushFailed
deriving DecidableEq

/-- controllers/sendPushController.ts sendPushNotification, wired at
POST /subscriptions/send.  Looks the subscription up by the
`userId + "-" + base64(origin)` key and performs no consent check:
a truthy fcmToken routes to FCM, otherwise a truthy endpoint with a
present keys object routes to Web Push; `fcmOk` / `webOk` model whether
the provider call succeeds.  `message` only feeds the payload body. -/
def sendPushNotification (subs : SubsStore)
    (userId origin message : Option String)
    (fcmOk webOk : Bool) : PushOutcome :=
  if truthyStr userId && truthyStr origin then
    let userKey := controllerUserKey (userId.getD "") (origin.getD "")
    match lookupDoc subs userKey with
    | none => PushOutcome.notFound
    | some sub =>
      if truthyStr sub.fcmToken then
        if fcmOk then PushOutcome.fcmSent else PushOutcome.pushFailed
      else if truthyStr sub.endpoint && sub.keys.isSome then
        if webOk then PushOutcome.webPushSent else PushOutcome.pushFailed
      else PushOutcome.incompleteData
  else PushOutcome.missingParams

/-! ### Store lemmas -/

theorem lookupDoc_setDoc_self {α : Type} (s : List (String × α)) (k : String)
    (v : α) : lookupDoc (setDoc s k v) k = some v := by
  induction s with
  | nil => simp [setDoc, lookupDoc]
  | cons p rest ih =>
    obtain ⟨k', w⟩ := p
    by_cases h : k' = k
    · simp [setDoc, h, lookupDoc]
    · simp [setDoc, h, lookupDoc, ih]

theorem countKey_zero_of_lookup_none {α : Type} (s : List (String × α))
    (k : String) (h : lookupDoc s k = none) : countKey s k = 0 := by
  induction s with
  | nil => simp [countKey]
  | cons p rest ih =>
    obtain ⟨k', w⟩ := p
    by_cases hk : k' = k
    · simp [lookupDoc, hk] at h
    · simp only [lookupDoc, if_neg hk] at h
      simp [countKey, hk, ih h]

theorem countKey_setDoc_self {α : Type} (s : List (String × α)) (k : String)
    (v : α) :
    countKey (setDoc s k v) k = if countKey s k = 0 then 1 else countKey s k := by
  induction s with
  | nil => simp [setDoc, countKey]
  | cons p rest ih =>
    obtain ⟨k', w⟩ := p
    by_cases hk : k' = k
    · simp [setDoc, hk, countKey]
    · simp only [setDoc, if_neg hk, countKey, ih]
      simp [hk]

theorem lookupDoc_none_of_not_mem {α : Type} (m : List (String × α))
    (k : String) (h : k ∉ m.map Prod.fst) : lookupDoc m k = none := by
  induction m with
  | nil => simp [lookupDoc]
  | cons p rest ih =>
    simp only [List.map_cons, List.mem_cons, not_or] at h
    have hne : p.1 ≠ k := fun e => h.1 e.symm
    obtain ⟨k', w⟩ := p
    simp only [lookupDoc, if_neg hne]
    exact ih h.2

theorem lookupDoc_eraseKey_self {α : Type} (m : List (String × α))
    (k : String) (h : (m.map Prod.fst).Nodup) :
    lookupDoc (eraseKey m k) k = none := by
  induction m with
  | nil => simp [eraseKey, lookupDoc]
  | cons p rest ih =>
    obtain ⟨k', w⟩ := p
    simp only [List.map_cons, List.nodup_cons] at h
    by_cases hk : k' = k
    · subst hk
      simpa [eraseKey] using lookupDoc_none_of_not_mem rest k' h.1
    · simp [eraseKey, hk, lookupDoc, ih h.2]

/-- Helper: the send handler answers 403 whenever the looked-up
subscription has no permissions entry for the resolved origin. -/
theorem send_denied_of_no_entry
    (subs : SubsStore) (tenantOrigin hostHeader : Option String)
    (body : SendBody) (msgId : String) (fcm : FcmResult) (auditOk : Bool)
    (o : String) (doc : SubscriptionDoc)
    (hbody : validSendBody body = true) (ho : o ≠ "")
    (hdoc : lookupDoc subs body.userKey = some doc)
    (hperm : hasPermissionEntry doc o = false) :
    (notificationsSend subs tenantOrigin (some o) hostHeader body msgId fcm
      auditOk).1 = SendOutcome.permissionDenied := by
  have hjs : jsOr (some o) hostHeader = some o := by
    simp [jsOr, truthyStr, ho]
  unfold notificationsSend
  rw [hbody, hjs, hdoc]
  simp [ho, hperm]

/-! ### Claims -/

/-- C1: the claim says the consent decision uses the origin the auth
middleware resolved from the API key, so two send requests with the same
API key and identical bodies but different Origin headers get the same
consent decision.  The code instead resolves the consent origin from the
Origin/Host request headers: with one concrete API key (origin
a.example) and one concrete body, the request with Origin header
b.example is authorized and delivered while the request with Origin
header c.example is denied. -/
theorem c1_header_origin_decides_consent :
    sendRoute true (some "Bearer 0123456789abcdef0123456789abcdef")
      [("0123456789abcdef0123456789abcdef",
        { origin := some "a.example", active := some true })]
      0 true
      [("user1key",
        { fcmToken := some "tok1",
          permissions := some [("b.example", { granted := true, timestamp := 1 })] })]
      (some "b.example") none
      { userKey := "user1key", title := "Hi", body := "Yo" } "m1"
      FcmResult.ok true
      = (RouteOutcome.handled (SendOutcome.sent "m1"),
         [{ messageId := "m1", userKey := "user1key", origin := "b.example",
            title := "Hi", body := "Yo", status := "sent" }]) ∧
    sendRoute true (some "Bearer 0123456789abcdef0123456789abcdef")
      [("0123456789abcdef0123456789abcdef",
        { origin := some "a.example", active := some true })]
      0 true
      [("user1key",
        { fcmToken := some "tok1",
          permissions := some [("b.example", { granted := true, timestamp := 1 })] })]
      (some "c.example") none
      { userKey := "user1key", title := "Hi", body := "Yo" } "m1"
      FcmResult.ok true
      = (RouteOutcome.handled SendOutcome.permissionDenied, []) := by
  exact ⟨by decide, by decide⟩

/-- C2 counterexample: a subscription whose permissions entry for the
requesting origin has granted=false is not denied: the send goes
through, because the consent check only tests presence of the entry. -/
theorem c2_granted_false_not_denied :
    (notificationsSend
      [("user1key",
        { fcmToken := some "tok1",
          permissions := some [("a.example", { granted := false, timestamp := 0 })] })]
      (some "a.example") (some "a.example") none
      { userKey := "user1key", title := "Hi", body := "Yo" } "m1"
      FcmResult.ok true).1
      = SendOutcome.sent "m1" ∧
    lookupDoc [("a.example", ({ granted := false, timestamp := 0 } : PermEntry))]
      "a.example" = some { granted := false, timestamp := 0 } := by
  exact ⟨by decide, by decide⟩

/-- C2 amended: the send-time consent check denies with no_permission
exactly when the permissions map is absent or has no entry for the
requesting origin, regardless of the granted flag of a present entry; in
particular a subscription with an absent or empty permissions map is
denied for every origin. -/
theorem c2_denies_iff_entry_absent
    (subs : SubsStore) (tenantOrigin hostHeader : Option String)
    (body : SendBody) (msgId : String) (fcm : FcmResult) (auditOk : Bool)
    (o : String) (doc : SubscriptionDoc)
    (hbody : validSendBody body = true)
    (ho : o ≠ "")
    (hdoc : lookupDoc subs body.userKey = some doc) :
    (((notificationsSend subs tenantOrigin (some o) hostHeader body msgId fcm
        auditOk).1 = SendOutcome.permissionDenied)
      ↔ hasPermissionEntry doc o = false)
    ∧ ((doc.permissions = none ∨ doc.permissions = some []) →
        (notificationsSend subs tenantOrigin (some o) hostHeader body msgId fcm
          auditOk).1 = SendOutcome.permissionDenied) := by
  have hjs : jsOr (some o) hostHeader = some o := by
    simp [jsOr, truthyStr, ho]
  have hmain : ((notificationsSend subs tenantOrigin (some o) hostHeader body
      msgId fcm auditOk).1 = SendOutcome.permissionDenied)
      ↔ hasPermissionEntry doc o = false := by
    unfold notificationsSend
    rw [hbody, hjs, hdoc]
    simp only [if_true, if_neg ho]
    by_cases hperm : hasPermissionEntry doc o
    · simp only [hperm, if_true]
      cases fcm <;> cases hok : truthyStr doc.fcmToken <;>
        cases auditOk <;> simp
    · simp [hperm]
  refine ⟨hmain, fun hempty => ?_⟩
  have : hasPermissionEntry doc o = false := by
    rcases hempty with h | h <;> simp [hasPermissionEntry, h, lookupDoc]
  exact hmain.mpr this

/-- C2 amended witness at a concrete input: a granted entry for the
requesting origin is present, so the handler does not answer 403. -/
theorem c2_denies_iff_entry_absent_witness :
    validSendBody { userKey := "k1", title := "Hi", body := "Yo" } = true ∧
    (("a.example" : String) ≠ "") ∧
    lookupDoc
      [("k1", ({ permissions := some [("a.example", { granted := true, timestamp := 1 })] } : SubscriptionDoc))]
      "k1" = some { permissions := some [("a.example", { granted := true, timestamp := 1 })] } ∧
    ((((notificationsSend
        [("k1", { permissions := some [("a.example", { granted := true, timestamp := 1 })] })]
        none (some "a.example") none
        { userKey := "k1", title := "Hi", body := "Yo" } "m1"
        FcmResult.ok true).1 = SendOutcome.permissionDenied)
      ↔ hasPermissionEntry
          { permissions := some [("a.example", { granted := true, timestamp := 1 })] }
          "a.example" = false)
    ∧ ((({ permissions := some [("a.example", { granted := true, timestamp := 1 })] } : SubscriptionDoc).permissions = none ∨
        ({ permissions := some [("a.example", { granted := true, timestamp := 1 })] } : SubscriptionDoc).permissions = some []) →
        (notificationsSend
          [("k1", { permissions := some [("a.example", { granted := true, timestamp := 1 })] })]
          none (some "a.example") none
          { userKey := "k1", title := "Hi", body := "Yo" } "m1"
          FcmResult.ok true).1 = SendOutcome.permissionDenied)) :=
  ⟨by decide, by decide, by decide,
   c2_denies_iff_entry_absent _ none none _ "m1" FcmResult.ok true "a.example" _
     (by decide) (by decide) (by decide)⟩

/-- C3: the claim says the identity-key derivation is collision-safe
against delimiter injection.  It is not: the derivation hashes the bare
colon concatenation, so the distinct pairs (a:b, c) and (a, b:c) feed
the identical string a:b:c to the hash and derive the same key. -/
theorem c3_delimiter_collision :
    generateUserKey "a:b" "c" = generateUserKey "a" "b:c" ∧
    ¬("a:b" = "a" ∧ "c" = "b:c") := by
  constructor
  · have h : combinedKeyInput "a:b" "c" = combinedKeyInput "a" "b:c" := by
      decide
    unfold generateUserKey
    rw [h]
  · decide

/-- C4 counterexample: a send that terminates in the consent-denied
Failed state writes nothing to the notifications audit collection — no
DispatchRecord with status failed exists. -/
theorem c4_failed_send_writes_no_record :
    notificationsSend
      [("user1key", { fcmToken := some "tok1", permissions := some [] })]
      (some "a.example") (some "a.example") none
      { userKey := "user1key", title := "Hi", body := "Yo" } "m1"
      FcmResult.ok true
      = (SendOutcome.permissionDenied, []) := by
  decide

/-- C4 amended: failed sends write no audit record at all; every record
the send handler ever writes to the notifications collection has status
sent (written only on the successful path, and the error answered to the
caller is not influenced by any failed-path audit write because no such
write exists). -/
theorem c4_all_written_records_sent
    (subs : SubsStore) (tenantOrigin headerOrigin hostHeader : Option String)
    (body : SendBody) (msgId : String) (fcm : FcmResult) (auditOk : Bool) :
    ((notificationsSend subs tenantOrigin headerOrigin hostHeader body msgId
        fcm auditOk).2).all (fun r => r.status = "sent") = true := by
  unfold notificationsSend
  repeat' split
  all_goals simp

/-- C5: registering the same (userId, origin, deliveryTarget) twice
through the inline register handler leaves exactly one record under the
derived identity key, with createdAt the first registration time and
updatedAt the second (side conditions: the Joi-required fields are
nonempty, the endpoint carries an FCM token, the key is fresh, the first
registration time is a positive timestamp, production mode). -/
theorem c5_register_idempotent
    (subs : SubsStore) (userId endpoint p256dh auth origin : String)
    (deviceInfo : Option String) (tok : String) (t1 t2 : Nat)
    (hu : userId ≠ "") (he : endpoint ≠ "") (hp : p256dh ≠ "") (ha : auth ≠ "")
    (ho : origin ≠ "")
    (htok : extractFCMToken endpoint = some tok)
    (hfresh : lookupDoc subs (generateUserKey userId origin) = none)
    (ht1 : 0 < t1) :
    countKey
      (registerInline
        (registerInline subs (some origin) userId endpoint p256dh auth
          deviceInfo false t1).2
        (some origin) userId endpoint p256dh auth deviceInfo false t2).2
      (generateUserKey userId origin) = 1 ∧
    (lookupDoc
      (registerInline
        (registerInline subs (some origin) userId endpoint p256dh auth
          deviceInfo false t1).2
        (some origin) userId endpoint p256dh auth deviceInfo false t2).2
      (generateUserKey userId origin)).map (fun d => (d.createdAt, d.updatedAt))
      = some (some t1, some t2) := by
  have h1 : registerInline subs (some origin) userId endpoint p256dh auth
      deviceInfo false t1
      = (RegisterOutcome.success (generateUserKey userId origin),
         setDoc subs (generateUserKey userId origin)
           (registerDoc none (generateUserKey userId origin) userId origin
             tok endpoint p256dh auth deviceInfo t1)) := by
    unfold registerInline
    simp [hu, he, hp, ha, ho, htok, hfresh]
  have h2 : registerInline
      (setDoc subs (generateUserKey userId origin)
        (registerDoc none (generateUserKey userId origin) userId origin tok
          endpoint p256dh auth deviceInfo t1))
      (some origin) userId endpoint p256dh auth deviceInfo false t2
      = (RegisterOutcome.success (generateUserKey userId origin),
         setDoc
           (setDoc subs (generateUserKey userId origin)
             (registerDoc none (generateUserKey userId origin) userId origin
               tok endpoint p256dh auth deviceInfo t1))
           (generateUserKey userId origin)
           (registerDoc
             (some (registerDoc none (generateUserKey userId origin) userId
               origin tok endpoint p256dh auth deviceInfo t1))
             (generateUserKey userId origin) userId origin tok endpoint
             p256dh auth deviceInfo t2)) := by
    unfold registerInline
    simp [hu, he, hp, ha, ho, htok, lookupDoc_setDoc_self]
  rw [h1]
  simp only []
  rw [h2]
  simp only []
  have hc0 : countKey subs (generateUserKey userId origin) = 0 :=
    countKey_zero_of_lookup_none subs (generateUserKey userId origin) hfresh
  constructor
  · rw [countKey_setDoc_self, countKey_setDoc_self, hc0]
    simp
  · rw [lookupDoc_setDoc_self]
    have ht1' : t1 ≠ 0 := by omega
    simp [registerDoc, registerCreatedAt, ht1']

/-- C5 witness at a concrete registration. -/
theorem c5_register_idempotent_witness :
    (("u1" : String) ≠ "") ∧
    (("https://fcm.googleapis.com/fcm/send/tok1" : String) ≠ "") ∧
    (("p256" : String) ≠ "") ∧ (("authsec" : String) ≠ "") ∧
    (("a.example" : String) ≠ "") ∧
    extractFCMToken "https://fcm.googleapis.com/fcm/send/tok1" = some "tok1" ∧
    lookupDoc ([] : SubsStore) (generateUserKey "u1" "a.example") = none ∧
    0 < 5 ∧
    (countKey
      (registerInline
        (registerInline [] (some "a.example") "u1"
          "https://fcm.googleapis.com/fcm/send/tok1" "p256" "authsec"
          none false 5).2
        (some "a.example") "u1" "https://fcm.googleapis.com/fcm/send/tok1"
        "p256" "authsec" none false 9).2
      (generateUserKey "u1" "a.example") = 1 ∧
    (lookupDoc
      (registerInline
        (registerInline [] (some "a.example") "u1"
          "https://fcm.googleapis.com/fcm/send/tok1" "p256" "authsec"
          none false 5).2
        (some "a.example") "u1" "https://fcm.googleapis.com/fcm/send/tok1"
        "p256" "authsec" none false 9).2
      (generateUserKey "u1" "a.example")).map
        (fun d => (d.createdAt, d.updatedAt)) = some (some 5, some 9)) :=
  ⟨by decide, by decide, by decide, by decide, by decide, by decide, by decide,
   by decide,
   c5_register_idempotent [] "u1" "https://fcm.googleapis.com/fcm/send/tok1"
     "p256" "authsec" "a.example" none "tok1" 5 9
     (by decide) (by decide) (by decide) (by decide) (by decide) (by decide)
     (by decide) (by decide)⟩

/-- C6 counterexample: a record holding a cloud-push token, re-registered
through the controller with Web Push credentials, loses the stored
fcmToken — `docRef.set(data)` replaces the document instead of merging. -/
theorem c6_reregistration_drops_other_transport :
    (lookupDoc
      [(controllerUserKey "u" "o",
        ({ userId := some "u", origin := some "o", platform := some "ios",
           timestamp := some 1, fcmToken := some "tok1" } : SubscriptionDoc))]
      (controllerUserKey "u" "o")).map (fun d => d.fcmToken)
      = some (some "tok1") ∧
    (lookupDoc
      (registerSubscription
        [(controllerUserKey "u" "o",
          { userId := some "u", origin := some "o", platform := some "ios",
            timestamp := some 1, fcmToken := some "tok1" })]
        { endpoint := some "https://push.example/sub1", p256dh := some "p256",
          auth := some "authsec", origin := some "o", userId := some "u" }
        2).2
      (controllerUserKey "u" "o")).map
        (fun d => (d.fcmToken, d.endpoint, d.keys))
      = some (none, some "https://push.example/sub1",
              some { p256dh := "p256", auth := "authsec" }) := by
  exact ⟨by decide, by decide⟩

/-- C6 amended: the controller upsert does not merge: `docRef.set(data)`
replaces the stored document, so after re-registration the stored record
holds exactly the new delivery-target fields and the credentials of the
other transport from the prior registration are gone. -/
theorem c6_set_replaces_document
    (subs : SubsStore) (b : ControllerBody) (now : Nat)
    (dOld : SubscriptionDoc)
    (hb : truthyStr b.origin = true) (hu : truthyStr b.userId = true)
    (hold : lookupDoc subs
      (controllerUserKey (b.userId.getD "") (b.origin.getD "")) = some dOld) :
    (truthyStr b.fcmToken = true →
      (lookupDoc (registerSubscription subs b now).2
        (controllerUserKey (b.userId.getD "") (b.origin.getD ""))).map
        (fun d => (d.fcmToken, d.endpoint, d.keys))
        = some (b.fcmToken, none, none)) ∧
    (truthyStr b.fcmToken = false → truthyStr b.endpoint = true →
      truthyStr b.auth = true → truthyStr b.p256dh = true →
      (lookupDoc (registerSubscription subs b now).2
        (controllerUserKey (b.userId.getD "") (b.origin.getD ""))).map
        (fun d => (d.fcmToken, d.endpoint, d.keys))
        = some (none, b.endpoint,
                some { p256dh := b.p256dh.getD "", auth := b.auth.getD "" })) := by
  constructor
  · intro hf
    unfold registerSubscription
    simp [hb, hu, hf, lookupDoc_setDoc_self]
  · intro hf he ha hp
    unfold registerSubscription
    simp [hb, hu, hf, he, ha, hp, lookupDoc_setDoc_self]

/-- C6 amended witness at a concrete re-registration via Web Push. -/
theorem c6_set_replaces_document_witness :
    truthyStr (some "o") = true ∧ truthyStr (some "u") = true ∧
    lookupDoc
      [(controllerUserKey "u" "o",
        ({ userId := some "u", origin := some "o", platform := some "ios",
           timestamp := some 1, fcmToken := some "tok1" } : SubscriptionDoc))]
      (controllerUserKey "u" "o")
      = some { userId := some "u", origin := some "o", platform := some "ios",
               timestamp := some 1, fcmToken := some "tok1" } ∧
    (lookupDoc
      (registerSubscription
        [(controllerUserKey "u" "o",
          { userId := some "u", origin := some "o", platform := some "ios",
            timestamp := some 1, fcmToken := some "tok1" })]
        { endpoint := some "https://push.example/sub2", p256dh := some "pp",
          auth := some "aa", origin := some "o", userId := some "u" } 3).2
      (controllerUserKey "u" "o")).map
        (fun d => (d.fcmToken, d.endpoint, d.keys))
      = some (none, some "https://push.example/sub2",
              some { p256dh := "pp", auth := "aa" }) :=
  ⟨by decide, by decide, by decide,
   (c6_set_replaces_document
     [(controllerUserKey "u" "o",
       { userId := some "u", origin := some "o", platform := some "ios",
         timestamp := some 1, fcmToken := some "tok1" })]
     { endpoint := some "https://push.example/sub2", p256dh := some "pp",
       auth := some "aa", origin := some "o", userId := some "u" } 3
     { userId := some "u", origin := some "o", platform := some "ios",
       timestamp := some 1, fcmToken := some "tok1" }
     (by decide) (by decide) (by decide)).2
     (by decide) (by decide) (by decide) (by decide)⟩

/-- C7 counterexample: on a stored record with active=false and two
granted entries, revoking one origin leaves a granted entry (so the
disjunction of remaining granted flags is true) but the stored active
flag stays false — the handler never recomputes active upward. -/
theorem c7_active_not_recomputed :
    (lookupDoc
      (deleteSubscription
        [("k1",
          ({ permissions := some
              [("a.example", { granted := true, timestamp := 1 }),
               ("b.example", { granted := true, timestamp := 1 })],
             active := some false } : SubscriptionDoc))]
        "k1" (some "a.example") 7).2
      "k1").map
      (fun d => (d.active, anyGranted (d.permissions.getD []),
                 hasPermissionEntry d "a.example"))
      = some (some false, true, false) := by
  decide

/-- C7 amended: after revoke on an existing subscription the stored
record has no permissions entry for the revoked origin, its updatedAt is
refreshed, the send-time consent check for that origin is denied, and
active is cleared to false when no remaining entry is granted but left
unchanged otherwise; revoke on an unknown key answers 404. -/
theorem c7_revoke_removes_entry
    (subs : SubsStore) (userKey o : String) (now : Nat) (d : SubscriptionDoc)
    (hk : userKey ≠ "") (ho : o ≠ "")
    (hdoc : lookupDoc subs userKey = some d)
    (hnodup : ((d.permissions.getD []).map Prod.fst).Nodup) :
    ((deleteSubscription subs userKey (some o) now).1 = DeleteOutcome.success ∧
     lookupDoc (deleteSubscription subs userKey (some o) now).2 userKey
       = some (revokedDoc d (some o) now) ∧
     hasPermissionEntry (revokedDoc d (some o) now) o = false ∧
     (revokedDoc d (some o) now).active
       = (if anyGranted (((revokedDoc d (some o) now).permissions).getD [])
          then d.active else some false) ∧
     (revokedDoc d (some o) now).updatedAt = some now ∧
     (∀ (body : SendBody) (msgId : String) (fcm : FcmResult)
        (auditOk : Bool) (tenantO hostH : Option String),
        validSendBody body = true → body.userKey = userKey →
        (notificationsSend (deleteSubscription subs userKey (some o) now).2
          tenantO (some o) hostH body msgId fcm auditOk).1
          = SendOutcome.permissionDenied)) ∧
    (∀ (subs2 : SubsStore) (k2 : String) (o2 : Option String) (n2 : Nat),
      k2 ≠ "" → lookupDoc subs2 k2 = none →
      (deleteSubscription subs2 k2 o2 n2).1 = DeleteOutcome.notFound) := by
  have hstore : deleteSubscription subs userKey (some o) now
      = (DeleteOutcome.success,
         setDoc subs userKey (revokedDoc d (some o) now)) := by
    unfold deleteSubscription
    simp [hk, hdoc]
  have hlook : lookupDoc (deleteSubscription subs userKey (some o) now).2
      userKey = some (revokedDoc d (some o) now) := by
    rw [hstore]
    exact lookupDoc_setDoc_self subs userKey (revokedDoc d (some o) now)
  have hpermsEq : (revokedDoc d (some o) now).permissions
      = revokePerms d.permissions (some o) := rfl
  have hperm : hasPermissionEntry (revokedDoc d (some o) now) o = false := by
    unfold hasPermissionEntry
    rw [hpermsEq]
    unfold revokePerms
    cases hdp : d.permissions with
    | none => simp
    | some m =>
      by_cases hin : (lookupDoc m o).isSome
      · have hnd : (m.map Prod.fst).Nodup := by
          simpa [hdp] using hnodup
        simp only [ho, hin, ne_eq, not_false_iff, true_and, if_true]
        simp [lookupDoc_eraseKey_self m o hnd]
      · have hlo : lookupDoc m o = none := by
          cases hlo2 : lookupDoc m o with
          | none => rfl
          | some p => rw [hlo2] at hin; simp at hin
        simp [hlo]
  refine ⟨⟨?_, hlook, hperm, rfl, rfl, ?_⟩, ?_⟩
  · rw [hstore]
  · intro body msgId fcm auditOk tenantO hostH hbody hbk
    refine send_denied_of_no_entry _ tenantO hostH body msgId fcm auditOk o
      (revokedDoc d (some o) now) hbody ho ?_ hperm
    rw [hbk]
    exact hlook
  · intro subs2 k2 o2 n2 hk2 hnone
    unfold deleteSubscription
    simp [hk2, hnone]

/-- C7 amended witness at a concrete revocation of the only granted
origin. -/
theorem c7_revoke_removes_entry_witness :
    (("k1" : String) ≠ "") ∧ (("a.example" : String) ≠ "") ∧
    lookupDoc
      [("k1",
        ({ permissions := some [("a.example", { granted := true, timestamp := 1 })],
           active := some true } : SubscriptionDoc))]
      "k1"
      = some { permissions := some [("a.example", { granted := true, timestamp := 1 })],
               active := some true } ∧
    ((deleteSubscription
        [("k1",
          { permissions := some [("a.example", { granted := true, timestamp := 1 })],
            active := some true })]
        "k1" (some "a.example") 7).1 = DeleteOutcome.success ∧
     lookupDoc
       (deleteSubscription
         [("k1",
           { permissions := some [("a.example", { granted := true, timestamp := 1 })],
             active := some true })]
         "k1" (some "a.example") 7).2 "k1"
       = some (revokedDoc
           { permissions := some [("a.example", { granted := true, timestamp := 1 })],
             active := some true }
           (some "a.example") 7) ∧
     hasPermissionEntry
       (revokedDoc
         { permissions := some [("a.example", { granted := true, timestamp := 1 })],
           active := some true }
         (some "a.example") 7) "a.example" = false ∧
     (revokedDoc
       { permissions := some [("a.example", { granted := true, timestamp := 1 })],
         active := some true }
       (some "a.example") 7).active
       = (if anyGranted
            (((revokedDoc
                { permissions := some [("a.example", { granted := true, timestamp := 1 })],
                  active := some true }
                (some "a.example") 7).permissions).getD [])
          then ({ permissions := some [("a.example", { granted := true, timestamp := 1 })],
                  active := some true } : SubscriptionDoc).active
          else some false) ∧
     (revokedDoc
       { permissions := some [("a.example", { granted := true, timestamp := 1 })],
         active := some true }
       (some "a.example") 7).updatedAt = some 7 ∧
     (∀ (body : SendBody) (msgId : String) (fcm : FcmResult)
        (auditOk : Bool) (tenantO hostH : Option String),
        validSendBody body = true → body.userKey = "k1" →
        (notificationsSend
          (deleteSubscription
            [("k1",
              { permissions := some [("a.example", { granted := true, timestamp := 1 })],
                active := some true })]
            "k1" (some "a.example") 7).2
          tenantO (some "a.example") hostH body msgId fcm auditOk).1
          = SendOutcome.permissionDenied)) ∧
    (∀ (subs2 : SubsStore) (k2 : String) (o2 : Option String) (n2 : Nat),
      k2 ≠ "" → lookupDoc subs2 k2 = none →
      (deleteSubscription subs2 k2 o2 n2).1 = DeleteOutcome.notFound) :=
  ⟨by decide, by decide, by decide,
   c7_revoke_removes_entry
     [("k1",
       { permissions := some [("a.example", { granted := true, timestamp := 1 })],
         active := some true })]
     "k1" "a.example" 7
     { permissions := some [("a.example", { granted := true, timestamp := 1 })],
       active := some true }
     (by decide) (by decide) (by decide) (by decide)⟩

/-- C8 counterexample: through the main send route
(POST /notifications/send) a subscription carrying only complete Web
Push fields (endpoint, p256dh, authSecret, no fcmToken) is never
delivered over Web Push: the handler requires an FCM token and answers
400 No FCM Token. -/
theorem c8_webpush_only_send_not_delivered :
    (notificationsSend
      [("k1",
        ({ endpoint := some "https://push.example/e1",
           keys := some { p256dh := "p256", auth := "authsec" },
           fcmToken := none,
           permissions := some [("a.example", { granted := true, timestamp := 1 })] }
          : SubscriptionDoc))]
      (some "a.example") (some "a.example") none
      { userKey := "k1", title := "Hi", body := "Yo" } "m1"
      FcmResult.ok true).1
      = SendOutcome.noFcmToken := by
  decide

/-- C8 amended: in the dispatcher wired at POST /subscriptions/send
(sendPushNotification) the claimed selection holds — a subscription with
a cloud-push token uses the FCM transport (also when both credential
sets are present, so cloud push is preferred), and one without a token
but with endpoint and keys uses the Web Push transport; the
POST /notifications/send route however only delivers via cloud push and
rejects Web-Push-only subscriptions (see the counterexample). -/
theorem c8_transport_selection
    (subs : SubsStore) (u o : String) (message : Option String)
    (fcmOk webOk : Bool) (d : SubscriptionDoc)
    (hu : u ≠ "") (ho : o ≠ "")
    (hd : lookupDoc subs (controllerUserKey u o) = some d) :
    (truthyStr d.fcmToken = true →
      sendPushNotification subs (some u) (some o) message fcmOk webOk
        = (if fcmOk then PushOutcome.fcmSent else PushOutcome.pushFailed)) ∧
    (truthyStr d.fcmToken = false → truthyStr d.endpoint = true →
      d.keys.isSome = true →
      sendPushNotification subs (some u) (some o) message fcmOk webOk
        = (if webOk then PushOutcome.webPushSent else PushOutcome.pushFailed)) := by
  have htu : truthyStr (some u) = true := by simp [truthyStr, hu]
  have hto : truthyStr (some o) = true := by simp [truthyStr, ho]
  constructor
  · intro hf
    unfold sendPushNotification
    simp [htu, hto, hd, hf]
  · intro hf he hk
    unfold sendPushNotification
    simp [htu, hto, hd, hf, he, hk]

/-- C8 amended witness: a Web-Push-only subscription is delivered over
Web Push by sendPushNotification. -/
theorem c8_transport_selection_witness :
    (("u" : String) ≠ "") ∧ (("o" : String) ≠ "") ∧
    lookupDoc
      [(controllerUserKey "u" "o",
        ({ endpoint := some "https://push.example/e1",
           keys := some { p256dh := "p256", auth := "authsec" } }
          : SubscriptionDoc))]
      (controllerUserKey "u" "o")
      = some { endpoint := some "https://push.example/e1",
               keys := some { p256dh := "p256", auth := "authsec" } } ∧
    truthyStr ({ endpoint := some "https://push.example/e1",
                 keys := some { p256dh := "p256", auth := "authsec" } }
                : SubscriptionDoc).fcmToken = false ∧
    (sendPushNotification
      [(controllerUserKey "u" "o",
        { endpoint := some "https://push.example/e1",
          keys := some { p256dh := "p256", auth := "authsec" } })]
      (some "u") (some "o") (some "hello") true true
      = (if true then PushOutcome.webPushSent else PushOutcome.pushFailed)) :=
  ⟨by decide, by decide, by decide, by decide,
   (c8_transport_selection
     [(controllerUserKey "u" "o",
       { endpoint := some "https://push.example/e1",
         keys := some { p256dh := "p256", auth := "authsec" } })]
     "u" "o" (some "hello") true true
     { endpoint := some "https://push.example/e1",
       keys := some { p256dh := "p256", auth := "authsec" } }
     (by decide) (by decide) (by decide)).2
     (by decide) (by decide) (by decide)⟩

/-- C9 counterexample: with one concrete valid, active, unexpired API
key, the request proceeds when the usage-audit write succeeds but is
answered 500 when the usage-audit write throws — the awaited audit write
inside the try block converts a successful authorization into an error
response. -/
theorem c9_usage_audit_failure_changes_outcome :
    validateApiKey true (some "Bearer 0123456789abcdef0123456789abcdef")
      [("0123456789abcdef0123456789abcdef",
        { origin := some "a.example", active := some true })]
      0 true
      = AuthResult.proceed
          { origin := some "a.example", permissions := [],
            createdBy := none, environment := "production" } ∧
    validateApiKey true (some "Bearer 0123456789abcdef0123456789abcdef")
      [("0123456789abcdef0123456789abcdef",
        { origin := some "a.example", active := some true })]
      0 false
      = AuthResult.internalError := by
  exact ⟨by decide, by decide⟩

/-- C9 amended: for every request presenting a valid, active, unexpired
API key, the outcome is proceed when the awaited usage-audit write
succeeds and a 500 internal error (the request does not proceed) when it
throws — the audit write is blocking and its failure fails the request. -/
theorem c9_usage_audit_write_is_blocking
    (production : Bool) (h apiKey : String) (apiKeys : KeyStore) (now : Nat)
    (usageWriteOk : Bool) (d : ApiKeyDoc)
    (hbear : hasBearerTag h = true)
    (hdrop : afterBearerTag h = apiKey)
    (hdev : ¬(production = false ∧ apiKey = devTestKey))
    (hlen : ¬(apiKey.length < 32))
    (hd : lookupDoc apiKeys apiKey = some d)
    (hactive : truthyBool d.active = true)
    (hexp : keyExpired d.expiresAt now = false) :
    validateApiKey production (some h) apiKeys now usageWriteOk
      = (if usageWriteOk then AuthResult.proceed (mkContext d)
         else AuthResult.internalError) := by
  have hdev' : (!production && decide (apiKey = devTestKey)) = false := by
    cases production with
    | true => simp
    | false =>
      have hne : apiKey ≠ devTestKey := fun e => hdev ⟨rfl, e⟩
      simp [hne]
  unfold validateApiKey
  simp only [hbear, hdrop, hdev', Bool.false_eq_true, if_false, if_true,
    hlen, hd, hactive, hexp]

/-- C9 amended witness at a concrete valid key with a failing audit
write. -/
theorem c9_usage_audit_write_is_blocking_witness :
    hasBearerTag "Bearer 0123456789abcdef0123456789abcdef" = true ∧
    afterBearerTag "Bearer 0123456789abcdef0123456789abcdef"
      = "0123456789abcdef0123456789abcdef" ∧
    ¬((true : Bool) = false ∧
      ("0123456789abcdef0123456789abcdef" : String) = devTestKey) ∧
    ¬(("0123456789abcdef0123456789abcdef" : String).length < 32) ∧
    lookupDoc
      [("0123456789abcdef0123456789abcdef",
        ({ origin := some "a.example", active := some true } : ApiKeyDoc))]
      "0123456789abcdef0123456789abcdef"
      = some { origin := some "a.example", active := some true } ∧
    truthyBool (some true) = true ∧
    keyExpired none 0 = false ∧
    validateApiKey true (some "Bearer 0123456789abcdef0123456789abcdef")
      [("0123456789abcdef0123456789abcdef",
        { origin := some "a.example", active := some true })]
      0 false
      = (if false then
           AuthResult.proceed
             (mkContext { origin := some "a.example", active := some true })
         else AuthResult.internalError) :=
  ⟨by decide, by decide, by decide, by decide, by decide, by decide, by decide,
   c9_usage_audit_write_is_blocking true
     "Bearer 0123456789abcdef0123456789abcdef"
     "0123456789abcdef0123456789abcdef"
     [("0123456789abcdef0123456789abcdef",
       { origin := some "a.example", active := some true })]
     0 false { origin := some "a.example", active := some true }
     (by decide) (by decide) (by decide) (by decide) (by decide) (by decide)
     (by decide)⟩

/-- C10 counterexample: the claimed conclusion that a register-then-send
sequence through the public interface can never deliver is false: after
a controller registration storing an fcmToken, POST /subscriptions/send
(sendPushNotification), which performs no consent check, delivers via
FCM. -/
theorem c10_register_then_send_delivers :
    (registerSubscription []
      { fcmToken := some "tok", origin := some "o", userId := some "u" }
      3).1
      = ControllerOutcome.success (controllerUserKey "u" "o") ∧
    sendPushNotification
      (registerSubscription []
        { fcmToken := some "tok", origin := some "o", userId := some "u" }
        3).2
      (some "u") (some "o") (some "hello") true true
      = PushOutcome.fcmSent := by
  exact ⟨by decide, by decide⟩

/-- C10 amended: every record created through the wired registration
handler (registerSubscription) contains no permissions map and no active
flag, and every POST /notifications/send addressed to the returned
userKey is denied 403 for every origin; the register-then-send sequence
can however still deliver through POST /subscriptions/send, which does
no consent check (see the counterexample). -/
theorem c10_controller_registration_never_consented
    (subs : SubsStore) (b : ControllerBody) (now : Nat)
    (hb : truthyStr b.origin = true) (hu : truthyStr b.userId = true)
    (htr : truthyStr b.fcmToken = true ∨
           (truthyStr b.fcmToken = false ∧ truthyStr b.endpoint = true ∧
            truthyStr b.auth = true ∧ truthyStr b.p256dh = true)) :
    (registerSubscription subs b now).1
      = ControllerOutcome.success
          (controllerUserKey (b.userId.getD "") (b.origin.getD "")) ∧
    (lookupDoc (registerSubscription subs b now).2
      (controllerUserKey (b.userId.getD "") (b.origin.getD ""))).map
      (fun d => (d.permissions, d.active)) = some (none, none) ∧
    (∀ (o : String) (tenantO hostH : Option String) (body : SendBody)
       (msgId : String) (fcm : FcmResult) (auditOk : Bool),
       validSendBody body = true → o ≠ "" →
       body.userKey = controllerUserKey (b.userId.getD "") (b.origin.getD "") →
       (notificationsSend (registerSubscription subs b now).2 tenantO (some o)
         hostH body msgId fcm auditOk).1 = SendOutcome.permissionDenied) := by
  have main : ∃ dnew : SubscriptionDoc,
      registerSubscription subs b now
        = (ControllerOutcome.success
            (controllerUserKey (b.userId.getD "") (b.origin.getD "")),
           setDoc subs
             (controllerUserKey (b.userId.getD "") (b.origin.getD "")) dnew)
      ∧ dnew.permissions = none ∧ dnew.active = none := by
    rcases htr with hf | ⟨hf, he, ha, hp⟩
    · refine ⟨{ userId := some (b.userId.getD ""),
                origin := some (b.origin.getD ""),
                platform := some (jsOrDefault b.platform "unknown"),
                timestamp := some now, fcmToken := b.fcmToken }, ?_, rfl, rfl⟩
      unfold registerSubscription
      simp [hb, hu, hf]
    · refine ⟨{ userId := some (b.userId.getD ""),
                origin := some (b.origin.getD ""),
                platform := some (jsOrDefault b.platform "unknown"),
                timestamp := some now, endpoint := b.endpoint,
                keys := some { p256dh := b.p256dh.getD "",
                               auth := b.auth.getD "" } }, ?_, rfl, rfl⟩
      unfold registerSubscription
      simp [hb, hu, hf, he, ha, hp]
  obtain ⟨dnew, hreg, hperm, hact⟩ := main
  refine ⟨?_, ?_, ?_⟩
  · rw [hreg]
  · rw [hreg]
    simp [lookupDoc_setDoc_self, hperm, hact]
  · intro o tenantO hostH body msgId fcm auditOk hbody ho hbk
    refine send_denied_of_no_entry _ tenantO hostH body msgId fcm auditOk o
      dnew hbody ho ?_ ?_
    · rw [hbk, hreg]
      exact lookupDoc_setDoc_self subs
        (controllerUserKey (b.userId.getD "") (b.origin.getD "")) dnew
    · simp [hasPermissionEntry, hperm]

/-- C10 amended witness at a concrete controller registration. -/
theorem c10_controller_registration_never_consented_witness :
    truthyStr (some "o") = true ∧ truthyStr (some "u") = true ∧
    (truthyStr (some "tok") = true ∨
     (truthyStr (some "tok") = false ∧ truthyStr (none : Option String) = true ∧
      truthyStr (none : Option String) = true ∧
      truthyStr (none : Option String) = true)) ∧
    ((registerSubscription []
        { fcmToken := some "tok", origin := some "o", userId := some "u" }
        3).1
      = ControllerOutcome.success
          (controllerUserKey
            (({ fcmToken := some "tok", origin := some "o",
                userId := some "u" } : ControllerBody).userId.getD "")
            (({ fcmToken := some "tok", origin := some "o",
                userId := some "u" } : ControllerBody).origin.getD "")) ∧
    (lookupDoc (registerSubscription []
        { fcmToken := some "tok", origin := some "o", userId := some "u" }
        3).2
      (controllerUserKey
        (({ fcmToken := some "tok", origin := some "o",
            userId := some "u" } : ControllerBody).userId.getD "")
        (({ fcmToken := some "tok", origin := some "o",
            userId := some "u" } : ControllerBody).origin.getD ""))).map
      (fun d => (d.permissions, d.active)) = some (none, none) ∧
    (∀ (o : String) (tenantO hostH : Option String) (body : SendBody)
       (msgId : String) (fcm : FcmResult) (auditOk : Bool),
       validSendBody body = true → o ≠ "" →
       body.userKey
         = controllerUserKey
             (({ fcmToken := some "tok", origin := some "o",
                 userId := some "u" } : ControllerBody).userId.getD "")
             (({ fcmToken := some "tok", origin := some "o",
                 userId := some "u" } : ControllerBody).origin.getD "") →
       (notificationsSend (registerSubscription []
           { fcmToken := some "tok", origin := some "o", userId := some "u" }
           3).2 tenantO (some o)
         hostH body msgId fcm auditOk).1 = SendOutcome.permissionDenied)) :=
  ⟨by decide, by decide, Or.inl (by decide),
   c10_controller_registration_never_consented []
     { fcmToken := some "tok", origin := some "o", userId := some "u" } 3
     (by decide) (by decide) (Or.inl (by decide))⟩

end MetanetNotify
